import Mathlib

/- Verification of the webhook verification and dispatch mechanism of the
   LicenseChain JavaScript SDK (src/webhook-verifier.ts: classes
   WebhookVerifier and WebhookHandler).

   Modelling conventions for the shallow embedding:
   * JavaScript values reachable from a parsed JSON payload are modelled by
     the inductive JsValue.  JSON numbers are modelled as integers, which is
     adequate for every property considered here.
   * External platform primitives are abstracted as explicit parameters:
     the HMAC digests of the crypto-js library become a structure Crypto of
     uninterpreted string functions, JSON.parse becomes a parameter
     J : String -> Except String JsValue returning either the parsed value
     or the stringified parse error, and the Date constructor plus getTime
     become a parameter parseDate : JsValue -> Option Int returning the
     epoch milliseconds, or none for an invalid date (whose NaN arithmetic
     makes every subsequent comparison false).  The current time is an
     explicit integer parameter now, in epoch milliseconds.
   * Thrown JavaScript exceptions are modelled with Except.  The one
     exception class of the file, WebhookVerificationError, and generic
     errors thrown by caller-supplied handlers both carry a message string.
   * Strings are compared character by character where the source compares
     charCodeAt; for the code-point range exercised by signatures and
     algorithm names the two coincide.
-/

inductive JsValue where
  | undefined
  | null
  | bool (b : Bool)
  | num (n : Int)
  | str (s : String)
  | arr (elems : List JsValue)
  | obj (fields : List (String × JsValue))

/-- JavaScript truthiness: undefined, null, false, 0 and the empty string
are falsy; every object and array (including empty ones) is truthy. -/
def truthy : JsValue → Bool
  | .undefined => false
  | .null => false
  | .bool b => b
  | .num n => n != 0
  | .str s => !s.isEmpty
  | .arr _ => true
  | .obj _ => true

/-- JavaScript property access value.field, as used by extractEventData.
Reading a property of null or undefined throws a TypeError; reading an
absent property of any other value yields undefined.  (The keys read by
this file never collide with prototype properties.)  The error string is
the stringified thrown error, as interpolated by the template literal in
the catch clause of parsePayload. -/
def JsValue.get : JsValue → String → Except String JsValue
  | .null, k => .error ("TypeError: Cannot read properties of null (reading " ++ k ++ ")")
  | .undefined, k => .error ("TypeError: Cannot read properties of undefined (reading " ++ k ++ ")")
  | .obj fields, k => .ok (((fields.find? (fun p => p.1 == k)).map (fun p => p.2)).getD .undefined)
  | _, _ => .ok .undefined

/-- Thrown errors: WebhookVerificationError from exceptions.ts, and a
generic Error thrown by a caller-supplied handler.  Both are instanceof
Error, so the catch clause of WebhookHandler.handle reads their message. -/
inductive JsError where
  | webhookVerificationError (message : String)
  | error (message : String)

def JsError.message : JsError → String
  | .webhookVerificationError m => m
  | .error m => m

/-- The three HMAC digests of the crypto-js library used by
generateSignature, as uninterpreted functions of (payload, secret)
returning the hex digest string.  The library itself is outside this
repository. -/
structure Crypto where
  hmacSHA1 : String → String → String
  hmacSHA256 : String → String → String
  hmacSHA512 : String → String → String

/-- The normalized event record produced by extractEventData.  Each field
holds the JavaScript value stored under that property; fields may hold
undefined when the source payload lacks them. -/
structure WebhookEvent where
  id : JsValue
  type : JsValue
  createdAt : JsValue
  data : JsValue

/-- String.prototype.toLowerCase as used on algorithm names (ASCII). -/
def jsToLower (s : String) : String := ⟨s.data.map Char.toLower⟩

namespace WebhookVerifier

/-- WebhookVerifier.generateSignature: switch on algorithm.toLowerCase()
selecting the HMAC digest, then format the result as algorithm=hash with
the caller-supplied spelling of the algorithm; an unsupported algorithm
throws a WebhookVerificationError.  The source default argument is
algorithm = sha256; defaults are passed explicitly in this embedding. -/
def generateSignature (C : Crypto) (secret payload algorithm : String) :
    Except JsError String :=
  if jsToLower algorithm = "sha1" then
    .ok (algorithm ++ "=" ++ C.hmacSHA1 payload secret)
  else if jsToLower algorithm = "sha256" then
    .ok (algorithm ++ "=" ++ C.hmacSHA256 payload secret)
  else if jsToLower algorithm = "sha512" then
    .ok (algorithm ++ "=" ++ C.hmacSHA512 payload secret)
  else
    .error (.webhookVerificationError ("Unsupported algorithm: " ++ algorithm))

/-- WebhookVerifier.secureCompare: return false when either string is
empty or the lengths differ, otherwise accumulate the bitwise OR of the
per-position character XORs and compare the accumulator with zero. -/
def secureCompare (a b : String) : Bool :=
  if a = "" ∨ b = "" ∨ a.length ≠ b.length then false
  else ((a.data.zip b.data).foldl
    (fun result p => result ||| (p.1.toNat ^^^ p.2.toNat)) 0) == 0

/-- WebhookVerifier.verifySignature: compute the expected signature and
compare; the try/catch absorbs the error thrown for an unsupported
algorithm, returning false. -/
def verifySignature (C : Crypto) (secret payload signature algorithm : String) : Bool :=
  match generateSignature C secret payload algorithm with
  | .ok expectedSignature => secureCompare signature expectedSignature
  | .error _ => false

/-- WebhookVerifier.extractEventData: build the normalized event from the
parsed payload, reading each property in source order with JavaScript
logical-or fallbacks (first truthy operand wins).  Property reads fault
when the payload is null or undefined; the fault is propagated to the
caller (parsePayload), whose catch converts it. -/
def extractEventData (payload : JsValue) : Except String WebhookEvent := do
  let id ← payload.get "id"
  let t1 ← payload.get "type"
  let ty ← if truthy t1 then pure t1 else payload.get "event"
  let c1 ← payload.get "created_at"
  let ca ← if truthy c1 then pure c1 else payload.get "createdAt"
  let d1 ← payload.get "data"
  let da ←
    if truthy d1 then pure d1
    else do
      let d2 ← payload.get "object"
      pure (if truthy d2 then d2 else JsValue.obj [])
  pure ⟨id, ty, ca, da⟩

/-- WebhookVerifier.parsePayload: reject with a WebhookVerificationError
when the signature does not verify; otherwise JSON.parse the payload and
normalize it, converting any error thrown while parsing or extracting
into a WebhookVerificationError with an Invalid JSON payload message. -/
def parsePayload (C : Crypto) (J : String → Except String JsValue)
    (secret payload signature algorithm : String) : Except JsError WebhookEvent :=
  if verifySignature C secret payload signature algorithm = false then
    .error (.webhookVerificationError "Invalid webhook signature")
  else
    match (J payload).bind extractEventData with
    | .ok ev => .ok ev
    | .error e => .error (.webhookVerificationError ("Invalid JSON payload: " ++ e))

/-- WebhookVerifier.verifyTimestamp: a falsy createdAt is accepted; an
unparsable date yields NaN arithmetic whose comparison is false; otherwise
the event is valid iff the absolute difference in seconds is at most the
tolerance.  Math.abs((current - event) / 1000) <= tolerance is encoded
exactly over the integers as natAbs (current - event) <= tolerance * 1000
(both sides in milliseconds); the source default tolerance is 300. -/
def verifyTimestamp (parseDate : JsValue → Option Int) (currentTime : Int)
    (payload : WebhookEvent) (tolerance : Int) : Bool :=
  if !(truthy payload.createdAt) then true
  else
    match parseDate payload.createdAt with
    | none => false
    | some eventTime =>
      decide ((((currentTime - eventTime).natAbs : Int)) ≤ tolerance * 1000)

end WebhookVerifier

/-- A registered event handler: takes the event, returns the handler
result or throws. -/
abbrev Handler := WebhookEvent → Except JsError JsValue

/-- The handler registry: a Map from event-type string to handler,
modelled as an association list in insertion order. -/
abbrev HandlerMap := List (String × Handler)

namespace WebhookHandler

/-- WebhookHandler.on: Map.prototype.set semantics; replace in place when
the key is present, else append. -/
def «on» (handlers : HandlerMap) (eventType : String) (handler : Handler) : HandlerMap :=
  if handlers.any (fun p => p.1 == eventType) then
    handlers.map (fun p => if p.1 == eventType then (p.1, handler) else p)
  else handlers ++ [(eventType, handler)]

/-- WebhookHandler.off: Map.prototype.delete semantics. -/
def off (handlers : HandlerMap) (eventType : String) : HandlerMap :=
  handlers.filter (fun p => !(p.1 == eventType))

/-- Map.prototype.get keyed by event.type: the registry keys are strings,
so a non-string type never matches. -/
def lookupHandler (handlers : HandlerMap) (t : JsValue) : Option Handler :=
  match t with
  | .str s => (handlers.find? (fun p => p.1 == s)).map (fun p => p.2)
  | _ => none

/-- Default handler bodies: each returns a status and its own event type
string, ignoring the event argument. -/
def handleLicenseCreated : Handler := fun _ =>
  .ok (.obj [("status", .str "processed"), ("event", .str "license.created")])

def handleLicenseUpdated : Handler := fun _ =>
  .ok (.obj [("status", .str "processed"), ("event", .str "license.updated")])

def handleLicenseRevoked : Handler := fun _ =>
  .ok (.obj [("status", .str "processed"), ("event", .str "license.revoked")])

def handleLicenseExpired : Handler := fun _ =>
  .ok (.obj [("status", .str "processed"), ("event", .str "license.expired")])

def handleLicenseValidated : Handler := fun _ =>
  .ok (.obj [("status", .str "processed"), ("event", .str "license.validated")])

def handleAppCreated : Handler := fun _ =>
  .ok (.obj [("status", .str "processed"), ("event", .str "app.created")])

def handleAppUpdated : Handler := fun _ =>
  .ok (.obj [("status", .str "processed"), ("event", .str "app.updated")])

def handleAppDeleted : Handler := fun _ =>
  .ok (.obj [("status", .str "processed"), ("event", .str "app.deleted")])

def handleUserCreated : Handler := fun _ =>
  .ok (.obj [("status", .str "processed"), ("event", .str "user.created")])

def handleUserUpdated : Handler := fun _ =>
  .ok (.obj [("status", .str "processed"), ("event", .str "user.updated")])

def handleUnknownEvent : Handler := fun event =>
  .ok (.obj [("status", .str "ignored"), ("event", event.type)])

/-- WebhookHandler.setupDefaultHandlers: the registry state installed by
the constructor, in registration order. -/
def defaultHandlers : HandlerMap :=
  [("license.created", handleLicenseCreated),
   ("license.updated", handleLicenseUpdated),
   ("license.revoked", handleLicenseRevoked),
   ("license.expired", handleLicenseExpired),
   ("license.validated", handleLicenseValidated),
   ("app.created", handleAppCreated),
   ("app.updated", handleAppUpdated),
   ("app.deleted", handleAppDeleted),
   ("user.created", handleUserCreated),
   ("user.updated", handleUserUpdated)]

/-- WebhookHandler.handleEvent: look up the handler for event.type,
fall back to handleUnknownEvent, invoke it. -/
def handleEvent (handlers : HandlerMap) (event : WebhookEvent) : Except JsError JsValue :=
  ((lookupHandler handlers event.type).getD handleUnknownEvent) event

/-- The event record as the JavaScript object placed in the result
envelope under the event key. -/
def eventToJs (e : WebhookEvent) : JsValue :=
  .obj [("id", e.id), ("type", e.type), ("createdAt", e.createdAt), ("data", e.data)]

/-- Object-literal property assignment: a later entry for an existing key
overwrites the value in place, a new key is appended. -/
def objSet (fields : List (String × JsValue)) (k : String) (v : JsValue) :
    List (String × JsValue) :=
  if fields.any (fun p => p.1 == k) then
    fields.map (fun p => if p.1 == k then (p.1, v) else p)
  else fields ++ [(k, v)]

/-- Own enumerable properties contributed by spreading a value into an
object literal: objects contribute their fields, strings and arrays
contribute index-keyed entries, primitives contribute nothing. -/
def spreadFields : JsValue → List (String × JsValue)
  | .obj fs => fs
  | .str s => s.data.enum.map (fun p => (toString p.1, JsValue.str (String.singleton p.2)))
  | .arr xs => xs.enum.map (fun p => (toString p.1, p.2))
  | _ => []

/-- The success envelope of WebhookHandler.handle: the object literal
with valid true and the event record, into which the handler result is
spread last, overriding any key it shares with the literal. -/
def mergeEnvelope (event : WebhookEvent) (result : JsValue) : JsValue :=
  .obj ((spreadFields result).foldl (fun fs p => objSet fs p.1 p.2)
    [("valid", JsValue.bool true), ("event", eventToJs event)])

/-- The body of the try block of WebhookHandler.handle: parse and verify,
check the timestamp with the default tolerance 300, route to the handler,
and build the merged envelope.  Every thrown error escapes to the catch. -/
def handleAttempt (C : Crypto) (J : String → Except String JsValue)
    (parseDate : JsValue → Option Int) (now : Int) (handlers : HandlerMap)
    (secret payload signature algorithm : String) : Except JsError JsValue := do
  let event ← WebhookVerifier.parsePayload C J secret payload signature algorithm
  if !(WebhookVerifier.verifyTimestamp parseDate now event 300) then
    throw (.webhookVerificationError "Webhook timestamp is too old")
  let result ← handleEvent handlers event
  pure (mergeEnvelope event result)

/-- WebhookHandler.handle: the try/catch boundary; any error thrown inside
the try block is converted into the failure envelope carrying the message
of the error (both modelled error forms are instanceof Error). -/
def handle (C : Crypto) (J : String → Except String JsValue)
    (parseDate : JsValue → Option Int) (now : Int) (handlers : HandlerMap)
    (secret payload signature algorithm : String) : JsValue :=
  match handleAttempt C J parseDate now handlers secret payload signature algorithm with
  | .ok v => v
  | .error e => .obj [("valid", JsValue.bool false), ("error", JsValue.str e.message)]

end WebhookHandler

/-- The ten event types with default handlers installed at construction. -/
def defaultEventTypes : List String :=
  ["license.created", "license.updated", "license.revoked", "license.expired",
   "license.validated", "app.created", "app.updated", "app.deleted",
   "user.created", "user.updated"]

/-- The value stored under key k in a parsed JSON object, or undefined. -/
def objLookup (fields : List (String × JsValue)) (k : String) : JsValue :=
  ((fields.find? (fun p => p.1 == k)).map (fun p => p.2)).getD .undefined

/-- Specification-side description of the field-normalization step: an
ordered list of source values evaluated in fixed priority order, the
first truthy one winning, with a fallback when none is truthy.  (The
specification says the first non-absent value wins; the code actually
takes the first truthy value, which this definition records and which
the theorems below compare with extractEventData.) -/
def specFirstTruthy (sources : List JsValue) (fallback : JsValue) : JsValue :=
  match sources with
  | [] => fallback
  | v :: rest => if truthy v then v else specFirstTruthy rest fallback

/-- A concrete stand-in for the external HMAC primitives, used to witness
the theorems at computable inputs: an injective tagged pairing of payload
and secret per algorithm. -/
def Ctoy : Crypto :=
  ⟨fun p s => "1:" ++ p ++ ":" ++ s,
   fun p s => "2:" ++ p ++ ":" ++ s,
   fun p s => "5:" ++ p ++ ":" ++ s⟩

/-- A concrete stand-in for the external Date parser, used in witnesses:
a numeric createdAt is taken as epoch milliseconds (as the JavaScript
Date constructor does for numbers), anything else is an invalid date. -/
def dateFromNum : JsValue → Option Int
  | .num n => some n
  | _ => none

/- Helper lemmas about the constant-time comparison. -/

theorem exceptOkBind {ε α β : Type} (a : α) (f : α → Except ε β) :
    (Except.ok a >>= f : Except ε β) = f a := rfl

theorem exceptErrorBind {ε α β : Type} (e : ε) (f : α → Except ε β) :
    ((Except.error e : Except ε α) >>= f) = Except.error e := rfl

theorem exceptPureEq {ε α : Type} (a : α) : (pure a : Except ε α) = Except.ok a := rfl

theorem exceptThrowEq {ε α : Type} (e : ε) : (throw e : Except ε α) = Except.error e := rfl

theorem stringEqOfData (a b : String) (h : a.data = b.data) : a = b := by
  cases a; cases b; exact congrArg String.mk h

theorem orNeZeroLeft (a b : Nat) (h : a ≠ 0) : a ||| b ≠ 0 := by
  intro hc
  apply h
  apply Nat.eq_of_testBit_eq
  intro i
  have hbit := congrArg (fun n => Nat.testBit n i) hc
  simp only [Nat.testBit_or, Nat.zero_testBit] at hbit ⊢
  exact (Bool.or_eq_false_iff.mp hbit).1

theorem charXorNeZero (a b : Char) (h : a ≠ b) : a.toNat ^^^ b.toNat ≠ 0 := by
  intro hc
  rw [Nat.xor_eq_zero] at hc
  exact h (Char.eq_of_val_eq (UInt32.toNat.inj hc))

theorem foldXorSelf (l : List Char) :
    ((l.zip l).foldl (fun result p => result ||| (p.1.toNat ^^^ p.2.toNat)) 0) = 0 := by
  induction l with
  | nil => rfl
  | cons c t ih =>
    simpa [List.zip, Nat.xor_self] using ih

theorem foldOrNeZero (ps : List (Char × Char)) (acc : Nat) (h : acc ≠ 0) :
    (ps.foldl (fun result p => result ||| (p.1.toNat ^^^ p.2.toNat)) acc) ≠ 0 := by
  induction ps generalizing acc with
  | nil => exact h
  | cons p t ih =>
    exact ih _ (orNeZeroLeft _ _ h)

theorem foldXorNeOfNe (l1 l2 : List Char) (hlen : l1.length = l2.length) (hne : l1 ≠ l2) :
    ((l1.zip l2).foldl (fun result p => result ||| (p.1.toNat ^^^ p.2.toNat)) 0) ≠ 0 := by
  induction l1 generalizing l2 with
  | nil =>
    cases l2 with
    | nil => exact absurd rfl hne
    | cons b t2 => exact absurd hlen (by simp)
  | cons a t1 ih =>
    cases l2 with
    | nil => exact absurd hlen (by simp)
    | cons b t2 =>
      by_cases hab : a = b
      · subst hab
        have htail : t1 ≠ t2 := by
          intro hc; exact hne (by rw [hc])
        have hlen2 : t1.length = t2.length := by simpa using hlen
        simpa [List.zip, Nat.xor_self] using ih t2 hlen2 htail
      · have hacc : (0 ||| (a.toNat ^^^ b.toNat)) ≠ 0 := by
          simpa using charXorNeZero a b hab
        simpa [List.zip] using foldOrNeZero (t1.zip t2) _ hacc

theorem secureCompare_eq_true_iff (a b : String) :
    WebhookVerifier.secureCompare a b = true ↔ (a = b ∧ a ≠ "") := by
  unfold WebhookVerifier.secureCompare
  by_cases hcond : (a = "" ∨ b = "" ∨ a.length ≠ b.length)
  · rw [if_pos hcond]
    simp only [Bool.false_eq_true, false_iff]
    rintro ⟨rfl, hne⟩
    rcases hcond with h | h | h
    · exact hne h
    · exact hne h
    · exact h rfl
  · rw [if_neg hcond]
    push_neg at hcond
    obtain ⟨ha, hb, hlen⟩ := hcond
    simp only [beq_iff_eq]
    constructor
    · intro hfold
      refine ⟨?_, ha⟩
      by_contra hne
      have hdata : a.data ≠ b.data := fun hc => hne (stringEqOfData a b hc)
      exact foldXorNeOfNe a.data b.data hlen hdata hfold
    · rintro ⟨rfl, _⟩
      exact foldXorSelf a.data

theorem secureCompare_self (s : String) (h : s ≠ "") :
    WebhookVerifier.secureCompare s s = true :=
  (secureCompare_eq_true_iff s s).mpr ⟨rfl, h⟩

theorem secureCompare_of_ne (a b : String) (h : a ≠ b) :
    WebhookVerifier.secureCompare a b = false := by
  cases hc : WebhookVerifier.secureCompare a b with
  | false => rfl
  | true => exact absurd ((secureCompare_eq_true_iff a b).mp hc).1 h

theorem appendMidNeEmpty (x y : String) : x ++ "=" ++ y ≠ "" := by
  intro h
  have hd := congrArg String.data h
  rw [String.data_append, String.data_append] at hd
  simp at hd

theorem generateSignature_ok_ne_empty (C : Crypto) (secret payload algorithm s : String)
    (h : WebhookVerifier.generateSignature C secret payload algorithm = .ok s) : s ≠ "" := by
  unfold WebhookVerifier.generateSignature at h
  split at h
  · cases h; exact appendMidNeEmpty _ _
  · split at h
    · cases h; exact appendMidNeEmpty _ _
    · split at h
      · cases h; exact appendMidNeEmpty _ _
      · cases h

/- Helper lemmas about timestamps, extraction and the handler registry. -/

theorem natAbsLe_iff_ratDivLe (d tol : Int) :
    (((d.natAbs : Int)) ≤ tol * 1000) ↔ |(d : ℚ)| / 1000 ≤ (tol : ℚ) := by
  rw [div_le_iff₀ (by norm_num : (0:ℚ) < 1000)]
  rw [← Int.cast_abs]
  constructor
  · intro h
    exact_mod_cast (by rwa [Int.abs_eq_natAbs] : |d| ≤ tol * 1000)
  · intro h
    have h2 : |d| ≤ tol * 1000 := by exact_mod_cast h
    rwa [Int.abs_eq_natAbs] at h2

theorem jsGetObj (fs : List (String × JsValue)) (k : String) :
    JsValue.get (.obj fs) k = .ok (objLookup fs k) := rfl

theorem extractEventData_obj_eq (fs : List (String × JsValue)) :
    WebhookVerifier.extractEventData (.obj fs) = .ok
      ⟨objLookup fs "id",
       if truthy (objLookup fs "type") then objLookup fs "type" else objLookup fs "event",
       if truthy (objLookup fs "created_at") then objLookup fs "created_at"
         else objLookup fs "createdAt",
       if truthy (objLookup fs "data") then objLookup fs "data"
         else if truthy (objLookup fs "object") then objLookup fs "object"
         else JsValue.obj []⟩ := by
  simp only [WebhookVerifier.extractEventData, jsGetObj, exceptOkBind]
  cases h1 : truthy (objLookup fs "type") <;>
  cases h2 : truthy (objLookup fs "created_at") <;>
  cases h3 : truthy (objLookup fs "data") <;>
  cases h4 : truthy (objLookup fs "object") <;>
    simp [h1, h2, h3, h4, exceptOkBind, exceptPureEq]

theorem findFilterOutKey {α : Type} (l : List (String × α)) (x : String) :
    ((l.filter (fun p => !(p.1 == x))).find? (fun p => p.1 == x)) = none := by
  induction l with
  | nil => rfl
  | cons a t ih =>
    by_cases h : a.1 = x
    · simp [List.filter_cons, h, ih]
    · simp only [List.filter_cons]
      have hb : (a.1 == x) = false := beq_false_of_ne h
      simp [hb, List.find?, ih]

/-- C4: for every payload, non-empty secret and supported algorithm,
verifying the freshly generated signature succeeds; any same-length
alteration of the signature makes verification fail; and verification of
the old signature against an altered payload fails whenever the altered
payload produces a different signature (which for the real HMAC digests
is exactly the absence of a collision; the digests live outside this
repository and are modelled as uninterpreted functions, so that assumption
appears as the hypothesis that the two generated signatures differ).
The non-empty-secret hypothesis mirrors the claim; the code needs only
that the generated signature is non-empty, which is forced by its
algorithm=hash shape. -/
theorem generate_then_verify (C : Crypto) (secret payload algorithm sig : String)
    (hsecret : secret ≠ "")
    (hgen : WebhookVerifier.generateSignature C secret payload algorithm = .ok sig) :
    WebhookVerifier.verifySignature C secret payload sig algorithm = true ∧
    (∀ sig2, sig2.length = sig.length → sig2 ≠ sig →
      WebhookVerifier.verifySignature C secret payload sig2 algorithm = false) ∧
    (∀ payload2 sig2,
      WebhookVerifier.generateSignature C secret payload2 algorithm = .ok sig2 →
      sig2 ≠ sig →
      WebhookVerifier.verifySignature C secret payload2 sig algorithm = false) := by
  refine ⟨?_, ?_, ?_⟩
  · unfold WebhookVerifier.verifySignature
    rw [hgen]
    exact secureCompare_self sig (generateSignature_ok_ne_empty C secret payload algorithm sig hgen)
  · intro sig2 hlen hne
    unfold WebhookVerifier.verifySignature
    rw [hgen]
    exact secureCompare_of_ne sig2 sig hne
  · intro payload2 sig2 hgen2 hne
    unfold WebhookVerifier.verifySignature
    rw [hgen2]
    exact secureCompare_of_ne sig sig2 (Ne.symm hne)

/-- C4 witness: the toy crypto at concrete inputs; the verbatim signature
verifies, a one-character casing alteration of the signature fails, and
an altered payload (whose toy digest differs) fails against the original
signature. -/
theorem generate_then_verify_witness :
    WebhookVerifier.verifySignature Ctoy "sec" "pay" "sha256=2:pay:sec" "sha256" = true ∧
    WebhookVerifier.verifySignature Ctoy "sec" "pay" "shA256=2:pay:sec" "sha256" = false ∧
    WebhookVerifier.verifySignature Ctoy "sec" "pax" "sha256=2:pay:sec" "sha256" = false := by
  have h := generate_then_verify Ctoy "sec" "pay" "sha256" "sha256=2:pay:sec" (by decide) rfl
  exact ⟨h.1, h.2.1 "shA256=2:pay:sec" (by decide) (by decide),
         h.2.2 "pax" "sha256=2:pax:sec" rfl (by decide)⟩

/-- C5: verifySignature is a total Boolean function (never raises, by the
catch around its body): an empty supplied signature yields false, a
supplied signature whose length differs from the expected signature
yields false, and an algorithm outside the three supported digests makes
the internally thrown error degrade to false. -/
theorem verifySignature_degrades (C : Crypto) (secret payload signature algorithm : String) :
    (signature = "" →
      WebhookVerifier.verifySignature C secret payload signature algorithm = false) ∧
    (∀ sig, WebhookVerifier.generateSignature C secret payload algorithm = .ok sig →
      signature.length ≠ sig.length →
      WebhookVerifier.verifySignature C secret payload signature algorithm = false) ∧
    (jsToLower algorithm ≠ "sha1" → jsToLower algorithm ≠ "sha256" →
      jsToLower algorithm ≠ "sha512" →
      WebhookVerifier.verifySignature C secret payload signature algorithm = false) := by
  refine ⟨?_, ?_, ?_⟩
  · intro h
    subst h
    unfold WebhookVerifier.verifySignature
    cases hg : WebhookVerifier.generateSignature C secret payload algorithm with
    | ok s => simp [WebhookVerifier.secureCompare]
    | error e => rfl
  · intro sig hgen hlen
    unfold WebhookVerifier.verifySignature
    rw [hgen]
    show WebhookVerifier.secureCompare signature sig = false
    unfold WebhookVerifier.secureCompare
    rw [if_pos (Or.inr (Or.inr hlen))]
  · intro h1 h2 h3
    have hg : WebhookVerifier.generateSignature C secret payload algorithm
        = .error (.webhookVerificationError ("Unsupported algorithm: " ++ algorithm)) := by
      unfold WebhookVerifier.generateSignature
      rw [if_neg h1, if_neg h2, if_neg h3]
    unfold WebhookVerifier.verifySignature
    rw [hg]

/-- C5 witness: concrete empty-signature, mismatched-length and
unsupported-algorithm inputs all return false. -/
theorem verifySignature_degrades_witness :
    WebhookVerifier.verifySignature Ctoy "sec" "pay" "" "sha256" = false ∧
    WebhookVerifier.verifySignature Ctoy "sec" "pay" "sha256=short" "sha256" = false ∧
    WebhookVerifier.verifySignature Ctoy "sec" "pay" "sha256=2:pay:sec" "md5" = false := by
  refine ⟨(verifySignature_degrades Ctoy "sec" "pay" "" "sha256").1 rfl,
    (verifySignature_degrades Ctoy "sec" "pay" "sha256=short" "sha256").2.1
      "sha256=2:pay:sec" rfl (by decide),
    (verifySignature_degrades Ctoy "sec" "pay" "sha256=2:pay:sec" "md5").2.2
      (by decide) (by decide) (by decide)⟩

/-- C6 counterexample: the claim asserts that whenever a timestamp is
present, validity holds iff the difference is within tolerance.  But the
code tests JavaScript truthiness, not presence: an event whose createdAt
is the number 0 (the epoch, a present and parsable timestamp) is falsy,
so verifyTimestamp returns true even when the current time is a million
seconds away, where the claimed iff demands false. -/
theorem verifyTimestamp_present_zero_counterexample :
    WebhookVerifier.verifyTimestamp dateFromNum 1000000000
      ⟨.undefined, .str "t", .num 0, .obj []⟩ 300 = true ∧
    dateFromNum (JsValue.num 0) = some 0 ∧
    ¬ (|(1000000000 : ℚ) - ((0 : Int) : ℚ)| / 1000 ≤ (300 : ℚ)) := by
  refine ⟨rfl, rfl, ?_⟩
  rw [div_le_iff₀ (by norm_num : (0:ℚ) < 1000)]
  norm_num

/-- C6 amended: verifyTimestamp returns true when the event carries no
truthy createdAt (absent, null, 0, empty string or false all count as
absent); when createdAt is truthy and unparsable as a date it returns
false rather than raising; and when createdAt is truthy and parses to an
epoch time t, it returns true iff the absolute difference between now
and t in seconds is at most the tolerance (default 300, passed
explicitly in this embedding). -/
theorem verifyTimestamp_spec (parseDate : JsValue → Option Int) (now tol : Int)
    (ev : WebhookEvent) :
    (truthy ev.createdAt = false →
      WebhookVerifier.verifyTimestamp parseDate now ev tol = true) ∧
    (truthy ev.createdAt = true → parseDate ev.createdAt = none →
      WebhookVerifier.verifyTimestamp parseDate now ev tol = false) ∧
    (∀ t, truthy ev.createdAt = true → parseDate ev.createdAt = some t →
      (WebhookVerifier.verifyTimestamp parseDate now ev tol = true ↔
        |(now : ℚ) - (t : ℚ)| / 1000 ≤ (tol : ℚ))) := by
  refine ⟨?_, ?_, ?_⟩
  · intro h
    unfold WebhookVerifier.verifyTimestamp
    rw [h]
    rfl
  · intro h hpd
    unfold WebhookVerifier.verifyTimestamp
    rw [h, hpd]
    rfl
  · intro t h hpd
    unfold WebhookVerifier.verifyTimestamp
    rw [h, hpd]
    simp only [Bool.not_true, Bool.false_eq_true, if_false, decide_eq_true_eq]
    rw [natAbsLe_iff_ratDivLe]
    push_cast
    rfl

/-- C6 amended witness: an event without a timestamp is accepted, a
garbage timestamp is rejected without raising, and a parsable timestamp
satisfies the seconds-difference characterization. -/
theorem verifyTimestamp_spec_witness :
    WebhookVerifier.verifyTimestamp dateFromNum 5000
      ⟨.undefined, .undefined, .undefined, .obj []⟩ 300 = true ∧
    WebhookVerifier.verifyTimestamp dateFromNum 5000
      ⟨.undefined, .undefined, .str "not-a-date", .obj []⟩ 300 = false ∧
    (WebhookVerifier.verifyTimestamp dateFromNum 5000
      ⟨.undefined, .undefined, .num 4000, .obj []⟩ 300 = true ↔
      |(5000 : ℚ) - ((4000 : Int) : ℚ)| / 1000 ≤ (300 : ℚ)) :=
  ⟨(verifyTimestamp_spec dateFromNum 5000 300 ⟨.undefined, .undefined, .undefined, .obj []⟩).1 rfl,
   (verifyTimestamp_spec dateFromNum 5000 300 ⟨.undefined, .undefined, .str "not-a-date", .obj []⟩).2.1
     rfl rfl,
   (verifyTimestamp_spec dateFromNum 5000 300 ⟨.undefined, .undefined, .num 4000, .obj []⟩).2.2
     4000 rfl rfl⟩

/-- C9 counterexample: the claim asserts that a present source field wins
over its fallback even when it holds a falsy value such as the empty
string.  But with type present and empty, the code falls through to
event: the normalized type is the string x, not the empty string. -/
theorem extractEventData_falsy_counterexample :
    WebhookVerifier.extractEventData
        (.obj [("type", JsValue.str ""), ("event", JsValue.str "x")])
      = .ok ⟨.undefined, .str "x", .undefined, .obj []⟩ ∧
    JsValue.str "x" ≠ JsValue.str "" := by
  refine ⟨rfl, ?_⟩
  intro h
  injection h with h2
  exact absurd h2 (by decide)

/-- C9 amended: on any JSON object, each Event field is taken from the
first truthy source field in fixed priority order (type before event;
created-underscore-at before createdAt; data before object, falling back
to the empty object): a present but falsy source value (empty string, 0,
null, false) falls through to its lower-priority fallback. -/
theorem extractEventData_priority (fs : List (String × JsValue)) :
    WebhookVerifier.extractEventData (.obj fs) = .ok
      ⟨objLookup fs "id",
       specFirstTruthy [objLookup fs "type"] (objLookup fs "event"),
       specFirstTruthy [objLookup fs "created_at"] (objLookup fs "createdAt"),
       specFirstTruthy [objLookup fs "data", objLookup fs "object"] (JsValue.obj [])⟩ := by
  rw [extractEventData_obj_eq]
  simp only [specFirstTruthy]

/- Helper lemmas for the algorithm dispatch and string cancellation. -/

theorem exceptBindOk {ε α β : Type} (a : α) (f : α → Except ε β) :
    Except.bind (Except.ok a) f = f a := rfl

theorem exceptBindError {ε α β : Type} (e : ε) (f : α → Except ε β) :
    Except.bind (Except.error e : Except ε α) f = Except.error e := rfl

theorem generateSignature_eq_sha1 (C : Crypto) (secret payload alg : String)
    (h : jsToLower alg = "sha1") :
    WebhookVerifier.generateSignature C secret payload alg
      = .ok (alg ++ "=" ++ C.hmacSHA1 payload secret) := by
  unfold WebhookVerifier.generateSignature
  rw [if_pos h]

theorem generateSignature_eq_sha256 (C : Crypto) (secret payload alg : String)
    (h : jsToLower alg = "sha256") :
    WebhookVerifier.generateSignature C secret payload alg
      = .ok (alg ++ "=" ++ C.hmacSHA256 payload secret) := by
  unfold WebhookVerifier.generateSignature
  rw [if_neg (by rw [h]; decide), if_pos h]

theorem generateSignature_eq_sha512 (C : Crypto) (secret payload alg : String)
    (h : jsToLower alg = "sha512") :
    WebhookVerifier.generateSignature C secret payload alg
      = .ok (alg ++ "=" ++ C.hmacSHA512 payload secret) := by
  unfold WebhookVerifier.generateSignature
  rw [if_neg (by rw [h]; decide), if_neg (by rw [h]; decide), if_pos h]

theorem stringAppendRightCancel (x y z : String) (h : x ++ z = y ++ z) : x = y := by
  apply stringEqOfData
  have hd := congrArg String.data h
  rw [String.data_append, String.data_append] at hd
  exact List.append_cancel_right hd

theorem sigNeOfAlgNe (alg1 alg2 d : String) (hne : alg1 ≠ alg2) :
    alg1 ++ "=" ++ d ≠ alg2 ++ "=" ++ d := by
  intro h
  apply hne
  have h1 : alg1 ++ "=" = alg2 ++ "=" := stringAppendRightCancel _ _ d h
  exact stringAppendRightCancel _ _ "=" h1

/-- C10: the algorithm is matched case-insensitively but the original
spelling is embedded in the signature, so two casings of one supported
algorithm select the same digest yet produce unequal signature strings,
and verification with one casing rejects the signature generated with
the other. -/
theorem generateSignature_casing (C : Crypto) (secret payload alg1 alg2 : String)
    (hne : alg1 ≠ alg2) (hlow : jsToLower alg1 = jsToLower alg2)
    (hsup : jsToLower alg1 = "sha1" ∨ jsToLower alg1 = "sha256" ∨
      jsToLower alg1 = "sha512") :
    ∀ s1 s2, WebhookVerifier.generateSignature C secret payload alg1 = .ok s1 →
      WebhookVerifier.generateSignature C secret payload alg2 = .ok s2 →
      (∃ d, s1 = alg1 ++ "=" ++ d ∧ s2 = alg2 ++ "=" ++ d) ∧
      s1 ≠ s2 ∧
      WebhookVerifier.verifySignature C secret payload s1 alg2 = false ∧
      WebhookVerifier.verifySignature C secret payload s2 alg1 = false := by
  intro s1 s2 hs1 hs2
  have hl2 : jsToLower alg2 = jsToLower alg1 := hlow.symm
  rcases hsup with h | h | h
  all_goals {
    first
    | (rw [generateSignature_eq_sha1 C secret payload alg1 h] at hs1
       rw [generateSignature_eq_sha1 C secret payload alg2 (hl2.trans h)] at hs2)
    | (rw [generateSignature_eq_sha256 C secret payload alg1 h] at hs1
       rw [generateSignature_eq_sha256 C secret payload alg2 (hl2.trans h)] at hs2)
    | (rw [generateSignature_eq_sha512 C secret payload alg1 h] at hs1
       rw [generateSignature_eq_sha512 C secret payload alg2 (hl2.trans h)] at hs2)
    injection hs1 with h1
    injection hs2 with h2
    subst h1
    subst h2
    refine ⟨⟨_, rfl, rfl⟩, sigNeOfAlgNe alg1 alg2 _ hne, ?_, ?_⟩
    · unfold WebhookVerifier.verifySignature
      first
      | rw [generateSignature_eq_sha1 C secret payload alg2 (hl2.trans h)]
      | rw [generateSignature_eq_sha256 C secret payload alg2 (hl2.trans h)]
      | rw [generateSignature_eq_sha512 C secret payload alg2 (hl2.trans h)]
      exact secureCompare_of_ne _ _ (sigNeOfAlgNe alg1 alg2 _ hne)
    · unfold WebhookVerifier.verifySignature
      first
      | rw [generateSignature_eq_sha1 C secret payload alg1 h]
      | rw [generateSignature_eq_sha256 C secret payload alg1 h]
      | rw [generateSignature_eq_sha512 C secret payload alg1 h]
      exact secureCompare_of_ne _ _ (sigNeOfAlgNe alg2 alg1 _ (Ne.symm hne))
  }

/-- C10 witness: SHA256 and sha256 on the toy crypto produce distinct
signature strings, each rejected under the other spelling. -/
theorem generateSignature_casing_witness :
    ("SHA256=2:pay:sec" : String) ≠ "sha256=2:pay:sec" ∧
    WebhookVerifier.verifySignature Ctoy "sec" "pay" "SHA256=2:pay:sec" "sha256" = false ∧
    WebhookVerifier.verifySignature Ctoy "sec" "pay" "sha256=2:pay:sec" "SHA256" = false := by
  have h := generateSignature_casing Ctoy "sec" "pay" "SHA256" "sha256"
    (by decide) (by decide) (Or.inr (Or.inl (by decide)))
    "SHA256=2:pay:sec" "sha256=2:pay:sec" rfl rfl
  exact ⟨h.2.1, h.2.2.1, h.2.2.2⟩

/-- C1 counterexample: the claim asserts that once the signature verifies,
parsePayload signals InvalidPayload exactly when JSON deserialization
fails and otherwise returns the normalized Event.  But for the payload
string null (legal JSON whose deserialization succeeds, producing the
value null), the field-extraction step faults reading a property of null;
the same catch converts that fault, so parsePayload signals the Invalid
JSON payload error instead of returning an Event. -/
theorem parsePayload_null_counterexample :
    ((fun _ => Except.ok JsValue.null : String → Except String JsValue) "null"
      = .ok JsValue.null) ∧
    WebhookVerifier.verifySignature Ctoy "sec" "null" "sha256=2:null:sec" "sha256" = true ∧
    WebhookVerifier.parsePayload Ctoy (fun _ => .ok JsValue.null)
      "sec" "null" "sha256=2:null:sec" "sha256"
      = .error (.webhookVerificationError
          "Invalid JSON payload: TypeError: Cannot read properties of null (reading id)") :=
  ⟨rfl, rfl, rfl⟩

/-- C1 amended: when the signature does not verify, parsePayload signals
the Invalid webhook signature error for every JSON parser whatsoever (the
unverified payload is never parsed); when the signature verifies, a JSON
parse failure is converted into the Invalid JSON payload error; when
parsing and field extraction both succeed the normalized Event is
returned; a field-extraction fault (possible exactly for the JSON values
null and undefined-free: null) is converted by the same catch into the
Invalid JSON payload error; and extraction succeeds on every parsed value
other than null (and the out-of-JSON value undefined). -/
theorem parsePayload_spec (C : Crypto) (J : String → Except String JsValue)
    (secret payload signature algorithm : String) :
    (WebhookVerifier.verifySignature C secret payload signature algorithm = false →
      ∀ J2 : String → Except String JsValue,
        WebhookVerifier.parsePayload C J2 secret payload signature algorithm
          = .error (.webhookVerificationError "Invalid webhook signature")) ∧
    (WebhookVerifier.verifySignature C secret payload signature algorithm = true →
      ∀ e, J payload = .error e →
        WebhookVerifier.parsePayload C J secret payload signature algorithm
          = .error (.webhookVerificationError ("Invalid JSON payload: " ++ e))) ∧
    (WebhookVerifier.verifySignature C secret payload signature algorithm = true →
      ∀ d ev, J payload = .ok d → WebhookVerifier.extractEventData d = .ok ev →
        WebhookVerifier.parsePayload C J secret payload signature algorithm = .ok ev) ∧
    (WebhookVerifier.verifySignature C secret payload signature algorithm = true →
      ∀ d e2, J payload = .ok d → WebhookVerifier.extractEventData d = .error e2 →
        WebhookVerifier.parsePayload C J secret payload signature algorithm
          = .error (.webhookVerificationError ("Invalid JSON payload: " ++ e2))) ∧
    (∀ d, d ≠ JsValue.null → d ≠ JsValue.undefined →
      ∃ ev, WebhookVerifier.extractEventData d = .ok ev) := by
  refine ⟨?_, ?_, ?_, ?_, ?_⟩
  · intro hv J2
    unfold WebhookVerifier.parsePayload
    rw [if_pos hv]
  · intro hv e hJ
    unfold WebhookVerifier.parsePayload
    rw [if_neg (by simp [hv]), hJ, exceptBindError]
  · intro hv d ev hJ hext
    unfold WebhookVerifier.parsePayload
    rw [if_neg (by simp [hv]), hJ, exceptBindOk, hext]
  · intro hv d e2 hJ hext
    unfold WebhookVerifier.parsePayload
    rw [if_neg (by simp [hv]), hJ, exceptBindOk, hext]
  · intro d h1 h2
    cases d with
    | undefined => exact absurd rfl h2
    | null => exact absurd rfl h1
    | bool b => exact ⟨_, rfl⟩
    | num n => exact ⟨_, rfl⟩
    | str s => exact ⟨_, rfl⟩
    | arr xs => exact ⟨_, rfl⟩
    | obj fs => exact ⟨_, extractEventData_obj_eq fs⟩

/-- C1 witness: concrete instances of the amended behaviour: a bad
signature is rejected without consulting the parser, a parse error
becomes the Invalid JSON payload error, a parsed object becomes the
normalized Event, and extraction succeeds on a non-null primitive. -/
theorem parsePayload_spec_witness :
    WebhookVerifier.parsePayload Ctoy (fun _ => .error "ignored")
      "sec" "pay" "bad" "sha256"
      = .error (.webhookVerificationError "Invalid webhook signature") ∧
    WebhookVerifier.parsePayload Ctoy (fun _ => .error "SyntaxError: Unexpected token")
      "sec" "pay" "sha256=2:pay:sec" "sha256"
      = .error (.webhookVerificationError
          "Invalid JSON payload: SyntaxError: Unexpected token") ∧
    WebhookVerifier.parsePayload Ctoy (fun _ => .ok (.obj [("type", JsValue.str "a")]))
      "sec" "pay" "sha256=2:pay:sec" "sha256"
      = .ok ⟨.undefined, .str "a", .undefined, .obj []⟩ ∧
    (∃ ev, WebhookVerifier.extractEventData (JsValue.bool true) = .ok ev) := by
  refine ⟨?_, ?_, ?_, ?_⟩
  · exact (parsePayload_spec Ctoy (fun _ => .error "ignored") "sec" "pay" "bad" "sha256").1
      rfl (fun _ => .error "ignored")
  · exact (parsePayload_spec Ctoy (fun _ => .error "SyntaxError: Unexpected token")
      "sec" "pay" "sha256=2:pay:sec" "sha256").2.1 rfl "SyntaxError: Unexpected token" rfl
  · exact (parsePayload_spec Ctoy (fun _ => .ok (.obj [("type", JsValue.str "a")]))
      "sec" "pay" "sha256=2:pay:sec" "sha256").2.2.1 rfl (.obj [("type", JsValue.str "a")])
      ⟨.undefined, .str "a", .undefined, .obj []⟩ rfl rfl
  · exact (parsePayload_spec Ctoy (fun _ => .ok JsValue.null)
      "sec" "pay" "sha256=2:pay:sec" "sha256").2.2.2.2 (JsValue.bool true)
      (fun h => JsValue.noConfusion h) (fun h => JsValue.noConfusion h)

/- Helper lemmas stepping WebhookHandler.handle through its try block. -/

theorem handle_of_attempt_ok (C : Crypto) (J : String → Except String JsValue)
    (parseDate : JsValue → Option Int) (now : Int) (handlers : HandlerMap)
    (secret payload signature algorithm : String) (v : JsValue)
    (hatt : WebhookHandler.handleAttempt C J parseDate now handlers
      secret payload signature algorithm = .ok v) :
    WebhookHandler.handle C J parseDate now handlers secret payload signature algorithm
      = v := by
  unfold WebhookHandler.handle
  rw [hatt]

theorem handle_of_attempt_error (C : Crypto) (J : String → Except String JsValue)
    (parseDate : JsValue → Option Int) (now : Int) (handlers : HandlerMap)
    (secret payload signature algorithm : String) (e : JsError)
    (hatt : WebhookHandler.handleAttempt C J parseDate now handlers
      secret payload signature algorithm = .error e) :
    WebhookHandler.handle C J parseDate now handlers secret payload signature algorithm
      = .obj [("valid", JsValue.bool false), ("error", JsValue.str e.message)] := by
  unfold WebhookHandler.handle
  rw [hatt]

theorem handleAttempt_past_checks (C : Crypto) (J : String → Except String JsValue)
    (parseDate : JsValue → Option Int) (now : Int) (handlers : HandlerMap)
    (secret payload signature algorithm : String) (ev : WebhookEvent)
    (hpp : WebhookVerifier.parsePayload C J secret payload signature algorithm = .ok ev)
    (hts : WebhookVerifier.verifyTimestamp parseDate now ev 300 = true) :
    WebhookHandler.handleAttempt C J parseDate now handlers secret payload signature algorithm
      = (WebhookHandler.handleEvent handlers ev) >>=
          (fun result => pure (WebhookHandler.mergeEnvelope ev result)) := by
  unfold WebhookHandler.handleAttempt
  rw [hpp, exceptOkBind, hts]
  rfl

theorem handleAttempt_stale (C : Crypto) (J : String → Except String JsValue)
    (parseDate : JsValue → Option Int) (now : Int) (handlers : HandlerMap)
    (secret payload signature algorithm : String) (ev : WebhookEvent)
    (hpp : WebhookVerifier.parsePayload C J secret payload signature algorithm = .ok ev)
    (hts : WebhookVerifier.verifyTimestamp parseDate now ev 300 = false) :
    WebhookHandler.handleAttempt C J parseDate now handlers secret payload signature algorithm
      = .error (.webhookVerificationError "Webhook timestamp is too old") := by
  unfold WebhookHandler.handleAttempt
  rw [hpp, exceptOkBind, hts]
  rfl

theorem handleEvent_some (handlers : HandlerMap) (ev : WebhookEvent) (hdl : Handler)
    (hlook : WebhookHandler.lookupHandler handlers ev.type = some hdl) :
    WebhookHandler.handleEvent handlers ev = hdl ev := by
  unfold WebhookHandler.handleEvent
  rw [hlook]
  rfl

theorem handleEvent_none (handlers : HandlerMap) (ev : WebhookEvent)
    (hlook : WebhookHandler.lookupHandler handlers ev.type = none) :
    WebhookHandler.handleEvent handlers ev = WebhookHandler.handleUnknownEvent ev := by
  unfold WebhookHandler.handleEvent
  rw [hlook]
  rfl

theorem handleEvent_default (ev : WebhookEvent) (t : String)
    (hty : ev.type = .str t) (hmem : t ∈ defaultEventTypes) :
    WebhookHandler.handleEvent WebhookHandler.defaultHandlers ev
      = .ok (.obj [("status", JsValue.str "processed"), ("event", JsValue.str t)]) := by
  unfold WebhookHandler.handleEvent WebhookHandler.lookupHandler
  rw [hty]
  fin_cases hmem <;> rfl

theorem mergeEnvelope_status_event (ev : WebhookEvent) (x y : JsValue) :
    WebhookHandler.mergeEnvelope ev (.obj [("status", x), ("event", y)])
      = .obj [("valid", JsValue.bool true), ("event", y), ("status", x)] := rfl

/-- C2 counterexample: the claim asserts that the event field of the envelope equals
the parsed Event record.  In the code the handler result is spread last
into the literal with valid and event, so the event field of the
default handler result (the type string) overwrites the Event record: on
a concrete verified, timely license.created payload, the event field is
the string license.created, which is not the Event record the parse step
produced. -/
theorem handle_event_field_counterexample :
    WebhookHandler.handle Ctoy (fun _ => .ok (.obj [("type", JsValue.str "license.created")]))
      (fun _ => none) 0 WebhookHandler.defaultHandlers
      "sec" "PAYLOAD" "sha256=2:PAYLOAD:sec" "sha256"
      = .obj [("valid", JsValue.bool true), ("event", JsValue.str "license.created"),
              ("status", JsValue.str "processed")] ∧
    WebhookVerifier.parsePayload Ctoy (fun _ => .ok (.obj [("type", JsValue.str "license.created")]))
      "sec" "PAYLOAD" "sha256=2:PAYLOAD:sec" "sha256"
      = .ok ⟨.undefined, .str "license.created", .undefined, .obj []⟩ ∧
    JsValue.str "license.created"
      ≠ WebhookHandler.eventToJs ⟨.undefined, .str "license.created", .undefined, .obj []⟩ :=
  ⟨rfl, rfl, fun h => JsValue.noConfusion h⟩

/-- C2 amended: for every verified, timely payload whose type string has
a default handler, handle returns the envelope with valid true, the
status field of the handler result, processed, and an event field equal to the type
string contributed by the handler result, which is merged last and
therefore overrides the event record of the literal. -/
theorem handle_default_processed (C : Crypto) (J : String → Except String JsValue)
    (parseDate : JsValue → Option Int) (now : Int)
    (secret payload signature algorithm : String) (ev : WebhookEvent) (t : String)
    (hpp : WebhookVerifier.parsePayload C J secret payload signature algorithm = .ok ev)
    (hts : WebhookVerifier.verifyTimestamp parseDate now ev 300 = true)
    (hty : ev.type = .str t) (hmem : t ∈ defaultEventTypes) :
    WebhookHandler.handle C J parseDate now WebhookHandler.defaultHandlers
      secret payload signature algorithm
      = .obj [("valid", JsValue.bool true), ("event", JsValue.str t),
              ("status", JsValue.str "processed")] := by
  have hatt : WebhookHandler.handleAttempt C J parseDate now WebhookHandler.defaultHandlers
      secret payload signature algorithm
      = .ok (WebhookHandler.mergeEnvelope ev
          (.obj [("status", JsValue.str "processed"), ("event", JsValue.str t)])) := by
    rw [handleAttempt_past_checks C J parseDate now WebhookHandler.defaultHandlers
      secret payload signature algorithm ev hpp hts]
    rw [handleEvent_default ev t hty hmem, exceptOkBind]
    rfl
  rw [handle_of_attempt_ok C J parseDate now WebhookHandler.defaultHandlers
    secret payload signature algorithm _ hatt]
  rw [mergeEnvelope_status_event]

/-- C2 amended witness: a concrete verified payload of type user.updated
is routed to the default handler and produces the overridden envelope. -/
theorem handle_default_processed_witness :
    WebhookHandler.handle Ctoy (fun _ => .ok (.obj [("type", JsValue.str "user.updated")]))
      (fun _ => none) 0 WebhookHandler.defaultHandlers "sec" "P" "sha256=2:P:sec" "sha256"
      = .obj [("valid", JsValue.bool true), ("event", JsValue.str "user.updated"),
              ("status", JsValue.str "processed")] :=
  handle_default_processed Ctoy (fun _ => .ok (.obj [("type", JsValue.str "user.updated")]))
    (fun _ => none) 0 "sec" "P" "sha256=2:P:sec" "sha256"
    ⟨.undefined, .str "user.updated", .undefined, .obj []⟩ "user.updated" rfl rfl rfl (by decide)

/-- C3 counterexample: the claim asserts an error raised by a registered
handler propagates out of handle uncaught.  But handleEvent is awaited
inside the try block of handle, so the thrown error is caught and folded
into the same failure envelope as verification failures: with a handler
for boom.event that throws the message boom, handle returns the failure
envelope instead of propagating. -/
theorem handle_handler_throw_counterexample :
    WebhookHandler.handle Ctoy (fun _ => .ok (.obj [("type", JsValue.str "boom.event")]))
      (fun _ => none) 0
      (WebhookHandler.«on» WebhookHandler.defaultHandlers "boom.event"
        (fun _ => Except.error (JsError.error "boom")))
      "sec" "P" "sha256=2:P:sec" "sha256"
      = .obj [("valid", JsValue.bool false), ("error", JsValue.str "boom")] := rfl

/-- C3 amended: an error thrown by the handler a verified, timely payload
routes to is caught by the try/catch of handle and converted into the
failure envelope with the thrown message, exactly as verification and
parsing failures are; it does not propagate to the caller. -/
theorem handle_handler_error_caught (C : Crypto) (J : String → Except String JsValue)
    (parseDate : JsValue → Option Int) (now : Int) (handlers : HandlerMap)
    (secret payload signature algorithm : String) (ev : WebhookEvent)
    (hdl : Handler) (err : JsError)
    (hpp : WebhookVerifier.parsePayload C J secret payload signature algorithm = .ok ev)
    (hts : WebhookVerifier.verifyTimestamp parseDate now ev 300 = true)
    (hlook : WebhookHandler.lookupHandler handlers ev.type = some hdl)
    (hthrow : hdl ev = .error err) :
    WebhookHandler.handle C J parseDate now handlers secret payload signature algorithm
      = .obj [("valid", JsValue.bool false), ("error", JsValue.str err.message)] := by
  have hatt : WebhookHandler.handleAttempt C J parseDate now handlers
      secret payload signature algorithm = .error err := by
    rw [handleAttempt_past_checks C J parseDate now handlers
      secret payload signature algorithm ev hpp hts]
    rw [handleEvent_some handlers ev hdl hlook, hthrow, exceptErrorBind]
  exact handle_of_attempt_error C J parseDate now handlers
    secret payload signature algorithm err hatt

/-- C3 amended witness: a registered throwing handler at concrete inputs
yields the failure envelope with the thrown message. -/
theorem handle_handler_error_caught_witness :
    WebhookHandler.handle Ctoy (fun _ => .ok (.obj [("type", JsValue.str "x.y")]))
      (fun _ => none) 0
      (WebhookHandler.«on» WebhookHandler.defaultHandlers "x.y"
        (fun _ => Except.error (JsError.error "kaboom")))
      "sec" "P" "sha256=2:P:sec" "sha256"
      = .obj [("valid", JsValue.bool false), ("error", JsValue.str "kaboom")] :=
  handle_handler_error_caught Ctoy (fun _ => .ok (.obj [("type", JsValue.str "x.y")]))
    (fun _ => none) 0
    (WebhookHandler.«on» WebhookHandler.defaultHandlers "x.y"
      (fun _ => Except.error (JsError.error "kaboom")))
    "sec" "P" "sha256=2:P:sec" "sha256"
    ⟨.undefined, .str "x.y", .undefined, .obj []⟩
    (fun _ => Except.error (JsError.error "kaboom")) (JsError.error "kaboom")
    rfl rfl rfl rfl

/-- C7: for every verified payload whose truthy createdAt parses to an
epoch time farther than the default 300 second tolerance from now, handle
does not raise: the internally thrown staleness error is caught and
reported in the returned envelope as valid false with an error message
containing too old. -/
theorem handle_stale_timestamp (C : Crypto) (J : String → Except String JsValue)
    (parseDate : JsValue → Option Int) (now : Int) (handlers : HandlerMap)
    (secret payload signature algorithm : String) (ev : WebhookEvent) (t : Int)
    (hpp : WebhookVerifier.parsePayload C J secret payload signature algorithm = .ok ev)
    (htr : truthy ev.createdAt = true)
    (hpd : parseDate ev.createdAt = some t)
    (hfar : ¬ (|(now : ℚ) - (t : ℚ)| / 1000 ≤ (300 : ℚ))) :
    WebhookHandler.handle C J parseDate now handlers secret payload signature algorithm
      = .obj [("valid", JsValue.bool false),
              ("error", JsValue.str "Webhook timestamp is too old")] ∧
    (∃ pre post, "Webhook timestamp is too old" = pre ++ "too old" ++ post) := by
  constructor
  · have hts : WebhookVerifier.verifyTimestamp parseDate now ev 300 = false := by
      unfold WebhookVerifier.verifyTimestamp
      rw [htr, hpd]
      show decide ((((now - t).natAbs : Int)) ≤ 300 * 1000) = false
      rw [decide_eq_false_iff_not]
      intro hle
      exact hfar (by
        have := (natAbsLe_iff_ratDivLe (now - t) 300).mp hle
        push_cast at this
        exact this)
    rw [handle_of_attempt_error C J parseDate now handlers secret payload signature
      algorithm (.webhookVerificationError "Webhook timestamp is too old")
      (handleAttempt_stale C J parseDate now handlers secret payload signature
        algorithm ev hpp hts)]
    rfl
  · exact ⟨"Webhook timestamp is ", "", by decide⟩

/-- C7 witness: a payload whose createdAt is 400 seconds (400000
milliseconds) in the past of now under the default tolerance yields the
too-old failure envelope. -/
theorem handle_stale_timestamp_witness :
    WebhookHandler.handle Ctoy
      (fun _ => .ok (.obj [("type", JsValue.str "license.created"),
                           ("created_at", JsValue.num 600000)]))
      dateFromNum 1000000 WebhookHandler.defaultHandlers
      "sec" "P" "sha256=2:P:sec" "sha256"
      = .obj [("valid", JsValue.bool false),
              ("error", JsValue.str "Webhook timestamp is too old")] :=
  (handle_stale_timestamp Ctoy
    (fun _ => .ok (.obj [("type", JsValue.str "license.created"),
                         ("created_at", JsValue.num 600000)]))
    dateFromNum 1000000 WebhookHandler.defaultHandlers "sec" "P" "sha256=2:P:sec" "sha256"
    ⟨.undefined, .str "license.created", .num 600000, .obj []⟩ 600000
    rfl rfl rfl (by norm_num)).1

/-- C8: for every verified, timely payload whose type has no registered
handler, handle falls back to the unknown-event handler and returns the
envelope with valid true, status ignored and the event field holding the
type (the unknown handler result, spread last, overrides the event
record), with no error field; and removing a registration with off after
adding it with on leaves the type without a handler, so such a payload
takes the same fallback. -/
theorem handle_unknown_ignored (C : Crypto) (J : String → Except String JsValue)
    (parseDate : JsValue → Option Int) (now : Int) (handlers : HandlerMap)
    (secret payload signature algorithm : String) (ev : WebhookEvent)
    (hpp : WebhookVerifier.parsePayload C J secret payload signature algorithm = .ok ev)
    (hts : WebhookVerifier.verifyTimestamp parseDate now ev 300 = true) :
    (WebhookHandler.lookupHandler handlers ev.type = none →
      WebhookHandler.handle C J parseDate now handlers secret payload signature algorithm
        = .obj [("valid", JsValue.bool true), ("event", ev.type),
                ("status", JsValue.str "ignored")]) ∧
    (∀ (hs : HandlerMap) (x : String) (hdl : Handler),
      WebhookHandler.lookupHandler
        (WebhookHandler.off (WebhookHandler.«on» hs x hdl) x) (.str x) = none) := by
  constructor
  · intro hlook
    have hatt : WebhookHandler.handleAttempt C J parseDate now handlers
        secret payload signature algorithm
        = .ok (WebhookHandler.mergeEnvelope ev
            (.obj [("status", JsValue.str "ignored"), ("event", ev.type)])) := by
      rw [handleAttempt_past_checks C J parseDate now handlers
        secret payload signature algorithm ev hpp hts]
      rw [handleEvent_none handlers ev hlook]
      rfl
    rw [handle_of_attempt_ok C J parseDate now handlers
      secret payload signature algorithm _ hatt]
    rw [mergeEnvelope_status_event]
  · intro hs x hdl
    show ((((WebhookHandler.«on» hs x hdl).filter (fun p => !(p.1 == x))).find?
      (fun p => p.1 == x)).map (fun p => p.2)) = none
    rw [findFilterOutKey]
    rfl

/-- C8 witness: a payload of the never-registered type unregistered.type
over the default registry takes the fallback, and so does a payload of
type x after on and off for x. -/
theorem handle_unknown_ignored_witness :
    WebhookHandler.handle Ctoy (fun _ => .ok (.obj [("type", JsValue.str "unregistered.type")]))
      (fun _ => none) 0 WebhookHandler.defaultHandlers "sec" "P" "sha256=2:P:sec" "sha256"
      = .obj [("valid", JsValue.bool true), ("event", JsValue.str "unregistered.type"),
              ("status", JsValue.str "ignored")] ∧
    WebhookHandler.handle Ctoy (fun _ => .ok (.obj [("type", JsValue.str "x")]))
      (fun _ => none) 0
      (WebhookHandler.off (WebhookHandler.«on» WebhookHandler.defaultHandlers "x"
        WebhookHandler.handleLicenseCreated) "x")
      "sec" "P" "sha256=2:P:sec" "sha256"
      = .obj [("valid", JsValue.bool true), ("event", JsValue.str "x"),
              ("status", JsValue.str "ignored")] := by
  constructor
  · exact (handle_unknown_ignored Ctoy
      (fun _ => .ok (.obj [("type", JsValue.str "unregistered.type")])) (fun _ => none) 0
      WebhookHandler.defaultHandlers "sec" "P" "sha256=2:P:sec" "sha256"
      ⟨.undefined, .str "unregistered.type", .undefined, .obj []⟩ rfl rfl).1 rfl
  · have h := handle_unknown_ignored Ctoy
      (fun _ => .ok (.obj [("type", JsValue.str "x")])) (fun _ => none) 0
      (WebhookHandler.off (WebhookHandler.«on» WebhookHandler.defaultHandlers "x"
        WebhookHandler.handleLicenseCreated) "x")
      "sec" "P" "sha256=2:P:sec" "sha256"
      ⟨.undefined, .str "x", .undefined, .obj []⟩ rfl rfl
    exact h.1 (h.2 WebhookHandler.defaultHandlers "x" WebhookHandler.handleLicenseCreated)
